import Mathlib

/-!
Shallow embedding of the goal/metric computation engine of the revenue
dashboard: `src/utils/goalCalculator.ts` and the metric pipeline of
`src/hooks/useFilters.ts`.

JavaScript `Date` values are modelled as a calendar day index (days since
1970-01-01, the local clock assumed to coincide with UTC, no DST) together
with the milliseconds elapsed within that day.  All date classes in the
code (`setHours`, `setDate(getDate()±n)`, `date-fns` `addDays`,
`startOfWeek`, `startOfMonth`, `startOfYear`, `differenceInCalendarDays`,
comparisons via epoch milliseconds) act on this representation.  Monetary
amounts (`number`) are modelled as exact rationals `ℚ`.
-/

namespace Dash

/-- A JS `Date`: calendar day index (days since 1970-01-01) plus
milliseconds within the day (`0 ≤ ms < 86400000` for values produced by JS;
not enforced by the type). -/
structure Timestamp where
  day : ℤ
  ms : ℕ
  deriving DecidableEq, Repr

/-- Milliseconds in one day. -/
def dayMs : ℕ := 86400000

/-- Milliseconds of 12:00:00.000 (noon). -/
def noonMs : ℕ := 43200000

/-- Milliseconds of 23:59:59.999 (end of day). -/
def endMs : ℕ := 86399999

/-- Model of `Date.prototype.getTime`: epoch milliseconds. -/
def Timestamp.toMs (t : Timestamp) : ℤ := t.day * (dayMs : ℤ) + (t.ms : ℤ)

/-- JS `<` on `Date` compares epoch milliseconds. -/
def jsLt (a b : Timestamp) : Bool := a.toMs < b.toMs

/-- JS `<=` on `Date` compares epoch milliseconds. -/
def jsLe (a b : Timestamp) : Bool := a.toMs ≤ b.toMs

/-- A Gregorian civil date (year, month 1-12, day-of-month 1-31). -/
structure CivilDate where
  year : ℤ
  month : ℤ
  day : ℤ
  deriving DecidableEq, Repr

/-- Civil date from a day index (days since 1970-01-01), the standard
Gregorian-calendar algorithm used by JS `Date` local accessors
(`getFullYear`, `getMonth`, `getDate`). -/
def civilFromDays (z0 : ℤ) : CivilDate :=
  let z := z0 + 719468
  let era := z.fdiv 146097
  let doe := z - era * 146097
  let yoe := (doe - doe.fdiv 1460 + doe.fdiv 36524 - doe.fdiv 146096).fdiv 365
  let y := yoe + era * 400
  let doy := doe - (365 * yoe + yoe.fdiv 4 - yoe.fdiv 100)
  let mp := (5 * doy + 2).fdiv 153
  let d := doy - (153 * mp + 2).fdiv 5 + 1
  let m := mp + (if mp < 10 then 3 else (-9 : ℤ))
  ⟨y + (if m ≤ 2 then 1 else 0), m, d⟩

/-- Day index (days since 1970-01-01) of a civil date; inverse direction of
`civilFromDays`, used to model "set the day-of-month/month field" operations
(`date-fns` `startOfMonth`, `startOfYear`). -/
def daysFromCivil (y0 m d : ℤ) : ℤ :=
  let y := y0 - (if m ≤ 2 then 1 else 0)
  let era := y.fdiv 400
  let yoe := y - era * 400
  let mp := m + (if 2 < m then (-3 : ℤ) else 9)
  let doy := (153 * mp + 2).fdiv 5 + d - 1
  let doe := yoe * 365 + yoe.fdiv 4 - yoe.fdiv 100 + doy
  era * 146097 + doe - 719468

/-- Model of `date.getFullYear()`. -/
def jsYear (t : Timestamp) : ℤ := (civilFromDays t.day).year

/-- Model of `date.getMonth() + 1`: month 1-12 (the code always uses `getMonth()+1`). -/
def jsMonth (t : Timestamp) : ℤ := (civilFromDays t.day).month

/-- Model of `date.getDate()`: day-of-month 1-31. -/
def jsDate (t : Timestamp) : ℤ := (civilFromDays t.day).day

/-- Model of `date.getDay()`: weekday, 0 = Sunday .. 6 = Saturday
(1970-01-01 was a Thursday). -/
def jsGetDay (t : Timestamp) : ℤ := (t.day + 4).emod 7

/-- Gregorian leap year. -/
def isLeapYear (y : ℤ) : Bool := y.emod 4 == 0 && (y.emod 100 != 0 || y.emod 400 == 0)

/-- Number of days of month `m` of year `y`. -/
def daysInMonthOf (y m : ℤ) : ℤ :=
  if m = 2 then (if isLeapYear y then 29 else 28)
  else if m = 4 ∨ m = 6 ∨ m = 9 ∨ m = 11 then 30
  else 31

/-- Model of `date-fns` `getDaysInMonth(date)`. -/
def jsDaysInMonth (t : Timestamp) : ℤ := daysInMonthOf (jsYear t) (jsMonth t)

/-- Model of `date-fns` `startOfMonth(date)`: same month, day-of-month 1, 00:00. -/
def jsStartOfMonth (t : Timestamp) : Timestamp :=
  ⟨daysFromCivil (jsYear t) (jsMonth t) 1, 0⟩

/-- Model of `date-fns` `startOfYear(date)`: January 1 of the same year, 00:00. -/
def jsStartOfYear (t : Timestamp) : Timestamp :=
  ⟨daysFromCivil (jsYear t) 1 1, 0⟩

/-- Model of `date-fns` `startOfWeek(date, { weekStartsOn: 1 })`: the Monday on or
before `date`, at 00:00. -/
def jsStartOfWeekMon (t : Timestamp) : Timestamp :=
  ⟨t.day - (jsGetDay t + 6).emod 7, 0⟩

/-- Model of `date-fns` `addDays(date, n)` (also JS `setDate(getDate() + n)`):
shifts the calendar day, preserving the time of day. -/
def jsAddDays (t : Timestamp) (n : ℤ) : Timestamp := ⟨t.day + n, t.ms⟩

/-- Model of `date-fns` `differenceInCalendarDays(a, b)`. -/
def jsDiffCalendarDays (a b : Timestamp) : ℤ := a.day - b.day

/-- Model of `Math.ceil(a / b)` for integer `a` and positive integer `b`. -/
def ceilDiv (a b : ℤ) : ℤ := -((-a).fdiv b)

/-! ## Data model (`src/types.ts`, `src/data/goals.ts`) -/

/-- Model of `RevenueLine`: a line-registry entry. -/
structure RevenueLine where
  empresa : String
  grupo : String
  segmento : String
  deriving DecidableEq, Repr

/-- Model of `FaturamentoRecord`: one dated revenue record. -/
structure FaturamentoRecord where
  data : Timestamp
  empresa : String
  grupo : String
  segmento : String
  faturamento : ℚ
  deriving DecidableEq, Repr

/-- Model of `Filters`: entity filters plus the optional custom date range. -/
structure Filters where
  empresas : List String
  grupos : List String
  segmentos : List String
  dataInicio : Option Timestamp
  dataFim : Option Timestamp
  deriving DecidableEq, Repr

/-- Model of `KPIs`. -/
structure KPIs where
  faturamentoFiltrado : ℚ
  faturamentoTotal : ℚ
  percentualDoTotal : ℚ
  deriving DecidableEq, Repr

/-- Model of `CompanyYearlyGoal`: per-line monthly targets, keyed by month 1-12
(a JS object with numeric keys, modelled as an association list). -/
structure CompanyYearlyGoal where
  empresa : String
  grupo : String
  metas : List (ℤ × ℚ)
  deriving DecidableEq, Repr

/-- Model of `company.metas[month] || 0`: association-list lookup, absent or zero
entries both give 0 (JS `|| 0` sends `undefined` and `0` to `0`). -/
def metaFor (metas : List (ℤ × ℚ)) (month : ℤ) : ℚ :=
  ((metas.lookup month).getD 0)

/-! ## Goal calculator (`src/utils/goalCalculator.ts`) -/

/-- Model of `CompanyMetaInfo`: a `CompanyYearlyGoal` enriched with the segment. -/
structure CompanyMetaInfo where
  empresa : String
  grupo : String
  metas : List (ℤ × ℚ)
  segmento : String
  deriving DecidableEq, Repr

/-- Model of `buildCompanyMetaInfo`: resolve each goal's segment from the line
registry, defaulting to `"OUTROS"` (JS `companyInfo?.segmento || 'OUTROS'`
also maps an empty-string segment to the default). -/
def buildCompanyMetaInfo (yearlyGoals : List CompanyYearlyGoal)
    (lines : List RevenueLine) : List CompanyMetaInfo :=
  yearlyGoals.map (fun goal =>
    let seg := match lines.find? (fun c => c.empresa == goal.empresa) with
      | some info => if info.segmento = "" then "OUTROS" else info.segmento
      | none => "OUTROS"
    ⟨goal.empresa, goal.grupo, goal.metas, seg⟩)

/-- Model of `filterCompaniesByFilters`: entity filters on the goal lines; an empty
filter list means "no restriction". -/
def filterCompaniesByFilters (companies : List CompanyMetaInfo)
    (filters : Filters) : List CompanyMetaInfo :=
  companies.filter (fun company =>
    (!(filters.empresas.length > 0 && !(filters.empresas.contains company.empresa))) &&
    (!(filters.grupos.length > 0 && !(filters.grupos.contains company.grupo))) &&
    (!(filters.segmentos.length > 0 && !(filters.segmentos.contains company.segmento))))

/-- Model of `normalizeDate`: `setHours(12, 0, 0, 0)` — same calendar day at noon. -/
def normalizeDate (t : Timestamp) : Timestamp := ⟨t.day, noonMs⟩

/-- Model of `isWeekend`: `getDay()` is 0 (Sunday) or 6 (Saturday). -/
def isWeekend (t : Timestamp) : Bool := jsGetDay t == 0 || jsGetDay t == 6

/-- Model of `getAdjustmentFactor`: 1 for every segment except `'AR CONDICIONADO'`,
which gets 0.5 on weekends and 1.2 on weekdays. -/
def getAdjustmentFactor (segmento : String) (date : Timestamp) : ℚ :=
  if segmento ≠ "AR CONDICIONADO" then 1
  else if isWeekend date then 1/2 else 6/5

/-- Model of `getCompanyDailyBaseGoal`: the month's target divided by the number of
days of the month (0 if the guard `daysInMonth > 0` fails). -/
def getCompanyDailyBaseGoal (company : CompanyMetaInfo) (date : Timestamp) : ℚ :=
  let month := jsMonth date
  let metaMensal := metaFor company.metas month
  let daysInMonth := jsDaysInMonth date
  if daysInMonth > 0 then metaMensal / (daysInMonth : ℚ) else 0

/-- Model of `getCompanyAdjustedDailyGoal` = base goal × segment adjustment. -/
def getCompanyAdjustedDailyGoal (company : CompanyMetaInfo) (date : Timestamp) : ℚ :=
  getCompanyDailyBaseGoal company date * getAdjustmentFactor company.segmento date

/-- Model of `getTotalAdjustedDailyGoal`: sum over lines at the noon-normalized date;
0 for an empty line list. -/
def getTotalAdjustedDailyGoal (companies : List CompanyMetaInfo) (date : Timestamp) : ℚ :=
  if companies.length = 0 then 0
  else
    let normalized := normalizeDate date
    companies.foldl (fun sum company => sum + getCompanyAdjustedDailyGoal company normalized) 0

/-- Model of `getTotalBaseDailyGoal`: as above, without the segment adjustment. -/
def getTotalBaseDailyGoal (companies : List CompanyMetaInfo) (date : Timestamp) : ℚ :=
  if companies.length = 0 then 0
  else
    let normalized := normalizeDate date
    companies.foldl (fun sum company => sum + getCompanyDailyBaseGoal company normalized) 0

/-- Model of `getTotalMonthlyGoal`: sum of the given month's targets over the lines. -/
def getTotalMonthlyGoal (companies : List CompanyMetaInfo) (month : ℤ) : ℚ :=
  if companies.length = 0 then 0
  else companies.foldl (fun sum company => sum + metaFor company.metas month) 0

/-- Model of `getTotalYearlyGoal`: sum of all monthly targets of all lines
(`Object.values(company.metas)` enumerates the stored entries). -/
def getTotalYearlyGoal (companies : List CompanyMetaInfo) : ℚ :=
  if companies.length = 0 then 0
  else companies.foldl (fun sum company =>
    sum + company.metas.foldl (fun acc e => acc + e.2) 0) 0

/-- The `while (current <= endDate)` loop of `sumAdjustedDailyGoalsForRange`,
unrolled over its iteration count: `count` remaining days starting at day
index `d` (the loop variable sits at noon throughout, since `addDays`
preserves the time of day of the normalized start). -/
def sumDaysFrom (companies : List CompanyMetaInfo) (d : ℤ) : ℕ → ℚ
  | 0 => 0
  | n + 1 => getTotalAdjustedDailyGoal companies ⟨d, noonMs⟩ + sumDaysFrom companies (d + 1) n

/-- Model of `sumAdjustedDailyGoalsForRange`: normalize both endpoints to noon, then
accumulate `getTotalAdjustedDailyGoal` for every day from start to end
inclusive; 0 for an empty line list or an inverted range. -/
def sumAdjustedDailyGoalsForRange (companies : List CompanyMetaInfo)
    (start end_ : Timestamp) : ℚ :=
  if companies.length = 0 then 0
  else
    let startDate := normalizeDate start
    let endDate := normalizeDate end_
    if jsLt endDate startDate then 0
    else sumDaysFrom companies startDate.day (endDate.day - startDate.day + 1).toNat

/-- Model of `buildDailyGoalMap`: ISO-day key (the calendar-day index under the
UTC = local-time convention) → total adjusted daily goal. -/
def buildDailyGoalMap (companies : List CompanyMetaInfo) (dates : List Timestamp) :
    List (ℤ × ℚ) :=
  dates.foldl (fun map date =>
    let normalized := normalizeDate date
    let key := normalized.day
    (map.filter (fun e => e.1 ≠ key)) ++ [(key, getTotalAdjustedDailyGoal companies normalized)]) []

/-! ## Filter/metrics aggregator (`src/hooks/useFilters.ts`) -/

/-- Model of `DatePreset`. -/
inductive DatePreset where
  | yesterday
  | wtd
  | mtd
  | all
  deriving DecidableEq, Repr

/-- Model of `effectiveDateRange`: the date window of the active preset, or the
custom `dataInicio`/`dataFim` pair for the `all` preset.  `now` is the raw
clock reading (`new Date()`), whose hours are first set to 23:59:59.999. -/
def effectiveDateRange (datePreset : DatePreset) (filters : Filters)
    (now : Timestamp) : Option Timestamp × Option Timestamp :=
  let today : Timestamp := ⟨now.day, endMs⟩
  match datePreset with
  | .yesterday =>
      let yesterday := jsAddDays today (-1)
      (some ⟨yesterday.day, 0⟩, some ⟨yesterday.day, endMs⟩)
  | .wtd => (some (jsStartOfWeekMon today), some today)
  | .mtd => (some (jsStartOfMonth today), some today)
  | .all => (filters.dataInicio, filters.dataFim)

/-- The entity-filter conditions of `filteredData` (and of
`entityFilteredData` inside `goalMetrics`): an empty filter list means "no
restriction", membership otherwise, AND across the three dimensions. -/
def recordPassesEntity (filters : Filters) (r : FaturamentoRecord) : Bool :=
  (!(filters.empresas.length > 0 && !(filters.empresas.contains r.empresa))) &&
  (!(filters.grupos.length > 0 && !(filters.grupos.contains r.grupo))) &&
  (!(filters.segmentos.length > 0 && !(filters.segmentos.contains r.segmento)))

/-- The date-range conditions of `filteredData`/`dateFilteredData`: drop a
record before a present `start` or after a present `end`. -/
def recordPassesDate (range : Option Timestamp × Option Timestamp)
    (r : FaturamentoRecord) : Bool :=
  (match range.1 with
   | some s => !(jsLt r.data s)
   | none => true) &&
  (match range.2 with
   | some e => !(jsLt e r.data)
   | none => true)

/-- Model of `filteredData`: records passing the entity filters and the effective
date range. -/
def filteredData (data : List FaturamentoRecord) (filters : Filters)
    (range : Option Timestamp × Option Timestamp) : List FaturamentoRecord :=
  data.filter (fun r => recordPassesEntity filters r && recordPassesDate range r)

/-- Model of `dateFilteredData`: records passing only the date range. -/
def dateFilteredData (data : List FaturamentoRecord)
    (range : Option Timestamp × Option Timestamp) : List FaturamentoRecord :=
  data.filter (fun r => recordPassesDate range r)

/-- Model of `array.reduce((sum, r) => sum + r.faturamento, 0)`. -/
def sumFaturamento (records : List FaturamentoRecord) : ℚ :=
  records.foldl (fun sum r => sum + r.faturamento) 0

/-- Model of `kpis`: filtered and total realized sums and the guarded percentage. -/
def kpis (data : List FaturamentoRecord) (filters : Filters)
    (range : Option Timestamp × Option Timestamp) : KPIs :=
  let faturamentoTotal := sumFaturamento (dateFilteredData data range)
  let faturamentoFiltrado := sumFaturamento (filteredData data filters range)
  let percentualDoTotal :=
    if faturamentoTotal > 0 then faturamentoFiltrado / faturamentoTotal * 100 else 0
  ⟨faturamentoFiltrado, faturamentoTotal, percentualDoTotal⟩

/-- Model of `CoverageMetrics`. -/
structure CoverageMetrics where
  observed : ℕ
  expected : ℤ
  percent : ℚ
  deriving DecidableEq, Repr

/-- The four coverage windows. -/
structure Coverage where
  dia : CoverageMetrics
  semana : CoverageMetrics
  mes : CoverageMetrics
  ano : CoverageMetrics
  deriving DecidableEq, Repr

/-- Model of `GoalMetrics` (`src/types.ts`). -/
structure GoalMetrics where
  metaMensal : ℚ
  metaProporcional : ℚ
  realizado : ℚ
  realizadoMes : ℚ
  gapProporcional : ℚ
  gapTotal : ℚ
  percentualMeta : ℚ
  percentualProporcional : ℚ
  diasNoMes : ℤ
  diaAtual : ℤ
  metaSemana : ℚ
  realizadoSemana : ℚ
  diasNaSemana : ℤ
  esperadoSemanal : ℚ
  metaDia : ℚ
  metaDiaAjustada : ℚ
  realizadoDia : ℚ
  metaAno : ℚ
  metasMensais : List ℚ
  realizadoAno : ℚ
  mesesNoAno : ℤ
  mesAtual : ℤ
  coverage : Coverage
  isArCondicionado : Bool

/-- The `countDays` helper of the coverage block: number of distinct
calendar days (midnight-normalized, keyed by their ISO day) of the records
falling inside `[start, end]`. -/
def countDays (records : List FaturamentoRecord) (start end_ : Timestamp) : ℕ :=
  ((records.filter (fun r =>
      let rd : Timestamp := ⟨r.data.day, 0⟩
      jsLe start rd && jsLe rd end_)).map (fun r => r.data.day)).toFinset.card

/-- The `build` helper of the coverage block. -/
def buildCoverage (records : List FaturamentoRecord) (start end_ : Timestamp) :
    CoverageMetrics :=
  let expected := max (jsDiffCalendarDays end_ start + 1) 0
  let observed := if expected > 0 then countDays records start end_ else 0
  { observed := observed
    expected := expected
    percent := if expected > 0 then (observed : ℚ) / (expected : ℚ) else 0 }

/-- The `referenceDate` of `goalMetrics`: the latest record date of the
filtered data, else the end of the effective range, else today. -/
def referenceDateOf (fd : List FaturamentoRecord)
    (range : Option Timestamp × Option Timestamp) (now : Timestamp) : Timestamp :=
  match fd with
  | [] =>
      match range.2 with
      | some e => e
      | none => now
  | r0 :: _ =>
      fd.foldl (fun latest r => if jsLt latest r.data then r.data else latest) r0.data

/-- Model of `goalMetrics`: the central derived structure, translated from
`useFilters.ts`.  `now` is the raw clock reading (`new Date()`); the
effective date range is recomputed from it as the code's separate memo
does. -/
def goalMetrics (data : List FaturamentoRecord) (filters : Filters)
    (datePreset : DatePreset) (yearlyGoals : List CompanyYearlyGoal)
    (lines : List RevenueLine) (now : Timestamp) : GoalMetrics :=
  let range := effectiveDateRange datePreset filters now
  let fd := filteredData data filters range
  -- D-1 at noon
  let yesterday : Timestamp := ⟨now.day - 1, noonMs⟩
  let isAllPreset := datePreset = DatePreset.all
  -- `hasCustomRange` = `isAllPreset && !!range.start && !!range.end`,
  -- realized below by matching on the two optional endpoints
  let referenceDate := referenceDateOf fd range now
  let refMonth := jsMonth yesterday
  let refYear := jsYear yesterday
  let diaAtual := jsDate yesterday
  let diasNoMes := jsDaysInMonth yesterday
  let selectedCompanies :=
    filterCompaniesByFilters (buildCompanyMetaInfo yearlyGoals lines) filters
  let isArCondicionado := selectedCompanies.length > 0 &&
    selectedCompanies.all (fun c => c.segmento == "AR CONDICIONADO")
  let entityFilteredData := data.filter (recordPassesEntity filters)
  let realizado := sumFaturamento fd
  let metaDia := getTotalBaseDailyGoal selectedCompanies yesterday
  let metaDiaAjustada := getTotalAdjustedDailyGoal selectedCompanies yesterday
  let metaAno := getTotalYearlyGoal selectedCompanies
  let metasMensais := (List.range 12).map (fun index =>
    getTotalMonthlyGoal selectedCompanies ((index : ℤ) + 1))
  let metaPair : ℚ × ℚ :=
    match range.1, range.2 with
    | some s, some e =>
        if isAllPreset then
          let m := sumAdjustedDailyGoalsForRange selectedCompanies s e
          (m, m)
        else
          (getTotalMonthlyGoal selectedCompanies refMonth,
           sumAdjustedDailyGoalsForRange selectedCompanies (jsStartOfMonth yesterday) yesterday)
    | _, _ =>
        if isAllPreset ∧ fd.length > 0 then
          let uniqueDates := ((fd.map (fun r => r.data.day)).eraseDups).map
            (fun d => (⟨d, noonMs⟩ : Timestamp))
          let goalMap := buildDailyGoalMap selectedCompanies uniqueDates
          let m := uniqueDates.foldl (fun sum date =>
            sum + ((goalMap.lookup date.day).getD 0)) 0
          (m, m)
        else
          (getTotalMonthlyGoal selectedCompanies refMonth,
           sumAdjustedDailyGoalsForRange selectedCompanies (jsStartOfMonth yesterday) yesterday)
  let metaMensal := metaPair.1
  let metaProporcional := metaPair.2
  let gapProporcional := realizado - metaProporcional
  let gapTotal := realizado - metaMensal
  let percentualMeta := if metaMensal > 0 then realizado / metaMensal * 100 else 0
  let percentualProporcional :=
    if metaProporcional > 0 then realizado / metaProporcional * 100 else 0
  let yesterdayEnd : Timestamp := ⟨yesterday.day, endMs⟩
  let weekStart := jsStartOfWeekMon yesterday
  let weekEnd := jsAddDays weekStart 6
  let diasNaSemana :=
    max (min ((yesterdayEnd.toMs - weekStart.toMs).fdiv (dayMs : ℤ) + 1) 7) 0
  let metaSemana := sumAdjustedDailyGoalsForRange selectedCompanies weekStart weekEnd
  let esperadoSemanal := sumAdjustedDailyGoalsForRange selectedCompanies weekStart yesterday
  let realizadoSemana := sumFaturamento (entityFilteredData.filter (fun r =>
    jsLe weekStart r.data && jsLe r.data yesterdayEnd))
  let yesterdayStart : Timestamp := ⟨yesterday.day, 0⟩
  let realizadoDia := sumFaturamento (entityFilteredData.filter (fun r =>
    jsLe yesterdayStart r.data && jsLe r.data yesterdayEnd))
  let monthStart := jsStartOfMonth yesterday
  let realizadoMes := sumFaturamento (entityFilteredData.filter (fun r =>
    jsLe monthStart r.data && jsLe r.data yesterdayEnd))
  let realizadoAno := sumFaturamento (entityFilteredData.filter (fun r =>
    jsYear r.data == refYear && jsLe r.data yesterdayEnd))
  let coverage :=
    let startDay : Timestamp := ⟨referenceDate.day, 0⟩
    let endDay : Timestamp := ⟨referenceDate.day, 0⟩
    let weekStartDate : Timestamp := ⟨weekStart.day, 0⟩
    let monthStartDate : Timestamp := ⟨(jsStartOfMonth referenceDate).day, 0⟩
    let yearStartDate : Timestamp := ⟨(jsStartOfYear referenceDate).day, 0⟩
    { dia := buildCoverage entityFilteredData startDay endDay
      semana := buildCoverage entityFilteredData weekStartDate endDay
      mes := buildCoverage entityFilteredData monthStartDate endDay
      ano := buildCoverage entityFilteredData yearStartDate endDay }
  { metaMensal := metaMensal
    metaProporcional := metaProporcional
    realizado := realizado
    realizadoMes := realizadoMes
    gapProporcional := gapProporcional
    gapTotal := gapTotal
    percentualMeta := percentualMeta
    percentualProporcional := percentualProporcional
    diasNoMes := diasNoMes
    diaAtual := diaAtual
    metaSemana := metaSemana
    realizadoSemana := realizadoSemana
    diasNaSemana := diasNaSemana
    esperadoSemanal := esperadoSemanal
    metaDia := metaDia
    metaDiaAjustada := metaDiaAjustada
    realizadoDia := realizadoDia
    metaAno := metaAno
    metasMensais := metasMensais
    realizadoAno := realizadoAno
    mesesNoAno := 12
    mesAtual := refMonth
    coverage := coverage
    isArCondicionado := isArCondicionado }

/-- Model of `comparisonDateRange`: `none` when comparison is disabled or the
effective range is unbounded; the custom comparison range verbatim when
set; otherwise the equal-duration period ending the day before the current
start, with its label. -/
def comparisonDateRange (comparisonEnabled : Bool)
    (customComparisonStart customComparisonEnd : Option Timestamp)
    (range : Option Timestamp × Option Timestamp) :
    Option (Timestamp × Timestamp × String) :=
  if !comparisonEnabled then none
  else
    match customComparisonStart, customComparisonEnd with
    | some cs, some ce => some (cs, ce, "Período Personalizado")
    | _, _ =>
      match range.1, range.2 with
      | some currentStart, some currentEnd =>
          let durationMs := currentEnd.toMs - currentStart.toMs
          let durationDays := ceilDiv durationMs (dayMs : ℤ) + 1
          let compEnd : Timestamp := ⟨currentStart.day - 1, endMs⟩
          let compStart : Timestamp := ⟨compEnd.day - durationDays + 1, 0⟩
          let label :=
            if durationDays = 1 then "Dia Anterior"
            else if durationDays ≤ 7 then toString durationDays ++ " dias anteriores"
            else "Período Anterior"
          some (compStart, compEnd, label)
      | _, _ => none

/-! ## Concrete fixtures (day indices relative to 1970-01-01:
2024-01-01 = 19723 (a Monday), 2024-01-06 = 19728 (a Saturday),
2024-03-01 = 19783, 2024-03-02 = 19784 (a Saturday), 2024-03-03 = 19785). -/

/-- Fixture: a line of the adjustment-eligible segment with January
target 31000. -/
def exCompanyAR : CompanyMetaInfo := ⟨"Y", "G1", [(1, 31000)], "AR CONDICIONADO"⟩

/-- Fixture: a line of a non-adjusted segment with January target 31000. -/
def exCompanyX : CompanyMetaInfo := ⟨"X", "G1", [(1, 31000)], "OUTROS"⟩

/-- Fixture: registry lines for the two-line scenario. -/
def exLines : List RevenueLine := [⟨"A", "G1", "OUTROS"⟩, ⟨"B", "G1", "OUTROS"⟩]

/-- Fixture: the two yearly goals of the two-line scenario (January target
3100 each). -/
def exGoals : List CompanyYearlyGoal := [⟨"A", "G1", [(1, 3100)]⟩, ⟨"B", "G1", [(1, 3100)]⟩]

/-- Fixture: empty entity filters with the custom range
2024-01-01 .. 2024-01-02. -/
def exFiltersJan : Filters := ⟨[], [], [], some ⟨19723, 0⟩, some ⟨19724, 0⟩⟩

/-- Fixture: completely empty filters. -/
def exFiltersNone : Filters := ⟨[], [], [], none, none⟩

/-- Fixture: a record of 100 on 2024-03-01. -/
def exRecMar1 : FaturamentoRecord := ⟨⟨19783, noonMs⟩, "A", "G1", "OUTROS", 100⟩

/-- Fixture: a record of 200 on 2024-03-02. -/
def exRecMar2 : FaturamentoRecord := ⟨⟨19784, noonMs⟩, "A", "G1", "OUTROS", 200⟩

end Dash

/-! ## Helper lemmas -/

namespace Dash

/-- Comparing two timestamps with equal time-of-day compares the days. -/
theorem jsLt_same_ms (x y : ℤ) (m : ℕ) : jsLt ⟨x, m⟩ ⟨y, m⟩ = decide (x < y) := by
  simp only [jsLt, Timestamp.toMs, dayMs]
  by_cases h : x < y
  · have : x * 86400000 + (m : ℤ) < y * 86400000 + (m : ℤ) := by nlinarith
    simp [h, this]
  · have : ¬ (x * 86400000 + (m : ℤ) < y * 86400000 + (m : ℤ)) := by
      push_neg at h ⊢
      nlinarith
    simp [h, this]

/-- Comparing two midnight timestamps compares the days. -/
theorem jsLe_same_ms (x y : ℤ) (m : ℕ) : jsLe ⟨x, m⟩ ⟨y, m⟩ = decide (x ≤ y) := by
  simp only [jsLe, Timestamp.toMs, dayMs]
  by_cases h : x ≤ y
  · have : x * 86400000 + (m : ℤ) ≤ y * 86400000 + (m : ℤ) := by nlinarith
    simp [h, this]
  · have : ¬ (x * 86400000 + (m : ℤ) ≤ y * 86400000 + (m : ℤ)) := by
      push_neg at h ⊢
      nlinarith
    simp [h, this]

/-- The loop accumulator of `sumAdjustedDailyGoalsForRange`, as a sum over
the list of visited days. -/
theorem sumDaysFrom_eq_sum (companies : List CompanyMetaInfo) (d : ℤ) (n : ℕ) :
    sumDaysFrom companies d n =
      ((List.range n).map
        (fun (i : ℕ) => getTotalAdjustedDailyGoal companies ⟨d + (i : ℤ), noonMs⟩)).sum := by
  induction n generalizing d with
  | zero => simp [sumDaysFrom]
  | succ k ih =>
      rw [List.range_succ_eq_map, List.map_cons, List.sum_cons, List.map_map]
      show getTotalAdjustedDailyGoal companies ⟨d, noonMs⟩ +
        sumDaysFrom companies (d + 1) k = _
      rw [ih]
      congr 1
      · norm_num
      · refine congrArg List.sum (List.map_congr_left ?_)
        intro i _
        simp only [Function.comp_apply]
        congr 1
        push_cast
        ring_nf

end Dash

namespace Dash

/-! ## Claim theorems -/

/-- C2: for every line and date, the adjusted daily goal is 0.5 × base on
Saturday (`getDay = 6`) or Sunday (`getDay = 0`) and 1.2 × base on
Monday-Friday when the segment is the adjustment-eligible
`"AR CONDICIONADO"`; for every other segment value (including the empty
string) it equals the base goal regardless of weekday. -/
theorem claim_C2 (company : CompanyMetaInfo) (date : Timestamp) :
    (company.segmento = "AR CONDICIONADO" → (jsGetDay date = 6 ∨ jsGetDay date = 0) →
      getCompanyAdjustedDailyGoal company date =
        1/2 * getCompanyDailyBaseGoal company date) ∧
    (company.segmento = "AR CONDICIONADO" → ¬(jsGetDay date = 6 ∨ jsGetDay date = 0) →
      getCompanyAdjustedDailyGoal company date =
        6/5 * getCompanyDailyBaseGoal company date) ∧
    (company.segmento ≠ "AR CONDICIONADO" →
      getCompanyAdjustedDailyGoal company date =
        getCompanyDailyBaseGoal company date) := by
  refine ⟨?_, ?_, ?_⟩
  · intro hseg hw
    unfold getCompanyAdjustedDailyGoal getAdjustmentFactor isWeekend
    rcases hw with h | h <;> simp [hseg, h, mul_comm]
  · intro hseg hw
    push_neg at hw
    unfold getCompanyAdjustedDailyGoal getAdjustmentFactor isWeekend
    simp [hseg, hw.1, hw.2, mul_comm]
  · intro hseg
    unfold getCompanyAdjustedDailyGoal getAdjustmentFactor
    simp [hseg]

/-- Witness for C2: 2024-01-06 (a Saturday) halves the AR CONDICIONADO
goal, 2024-01-02 (a Tuesday) scales it by 1.2, and a non-adjusted segment
is left unchanged. -/
theorem claim_C2_witness :
    (getCompanyAdjustedDailyGoal exCompanyAR ⟨19728, noonMs⟩ =
      1/2 * getCompanyDailyBaseGoal exCompanyAR ⟨19728, noonMs⟩) ∧
    (getCompanyAdjustedDailyGoal exCompanyAR ⟨19724, noonMs⟩ =
      6/5 * getCompanyDailyBaseGoal exCompanyAR ⟨19724, noonMs⟩) ∧
    (getCompanyAdjustedDailyGoal exCompanyX ⟨19728, noonMs⟩ =
      getCompanyDailyBaseGoal exCompanyX ⟨19728, noonMs⟩) :=
  ⟨(claim_C2 exCompanyAR ⟨19728, noonMs⟩).1 rfl (by decide),
   (claim_C2 exCompanyAR ⟨19724, noonMs⟩).2.1 rfl (by decide),
   (claim_C2 exCompanyX ⟨19728, noonMs⟩).2.2 (by decide)⟩

/-- C4: the range sum equals the day-by-day sum of the total adjusted
daily goal from start to end inclusive, and returns 0 for an empty line
list or an inverted (normalized) range. -/
theorem claim_C4 (companies : List CompanyMetaInfo) (start end_ : Timestamp) :
    (companies = [] → sumAdjustedDailyGoalsForRange companies start end_ = 0) ∧
    (end_.day < start.day → sumAdjustedDailyGoalsForRange companies start end_ = 0) ∧
    (start.day ≤ end_.day →
      sumAdjustedDailyGoalsForRange companies start end_ =
        ((List.range (end_.day - start.day + 1).toNat).map
          (fun (i : ℕ) =>
            getTotalAdjustedDailyGoal companies ⟨start.day + (i : ℤ), noonMs⟩)).sum) := by
  refine ⟨?_, ?_, ?_⟩
  · intro h
    subst h
    rfl
  · intro h
    unfold sumAdjustedDailyGoalsForRange
    by_cases hc : companies.length = 0
    · simp [hc]
    · simp only [hc, if_false, normalizeDate, jsLt_same_ms]
      simp [h]
  · intro h
    unfold sumAdjustedDailyGoalsForRange
    by_cases hc : companies.length = 0
    · have hnil : companies = [] := List.length_eq_zero.mp hc
      subst hnil
      simp [getTotalAdjustedDailyGoal]
    · simp only [hc, if_false, normalizeDate, jsLt_same_ms]
      have hnl : ¬ (end_.day < start.day) := not_lt.mpr h
      simp [hnl, sumDaysFrom_eq_sum]

/-- Witness for C4: the inverted range 2024-01-02 .. 2024-01-01 yields 0,
and the range 2024-01-01 .. 2024-01-02 equals its 2-day sum. -/
theorem claim_C4_witness :
    ((19723 : ℤ) < 19724 ∧
      sumAdjustedDailyGoalsForRange [exCompanyX] ⟨19724, 0⟩ ⟨19723, 0⟩ = 0) ∧
    ((19723 : ℤ) ≤ 19724 ∧
      sumAdjustedDailyGoalsForRange [exCompanyX] ⟨19723, 0⟩ ⟨19724, 0⟩ =
        ((List.range ((19724 : ℤ) - 19723 + 1).toNat).map
          (fun (i : ℕ) =>
            getTotalAdjustedDailyGoal [exCompanyX] ⟨19723 + (i : ℤ), noonMs⟩)).sum) :=
  ⟨⟨by decide, (claim_C4 [exCompanyX] ⟨19724, 0⟩ ⟨19723, 0⟩).2.1 (by decide)⟩,
   ⟨by decide, (claim_C4 [exCompanyX] ⟨19723, 0⟩ ⟨19724, 0⟩).2.2 (by decide)⟩⟩

/-- C10: the total adjusted/base daily goals and the range sum are
insensitive to the time-of-day of their date arguments — only the calendar
day matters, because each input is normalized to noon before use. -/
theorem claim_C10 (companies : List CompanyMetaInfo)
    (t u s1 s2 e1 e2 : Timestamp)
    (ht : t.day = u.day) (hs : s1.day = s2.day) (he : e1.day = e2.day) :
    getTotalAdjustedDailyGoal companies t = getTotalAdjustedDailyGoal companies u ∧
    getTotalBaseDailyGoal companies t = getTotalBaseDailyGoal companies u ∧
    sumAdjustedDailyGoalsForRange companies s1 e1 =
      sumAdjustedDailyGoalsForRange companies s2 e2 := by
  unfold getTotalAdjustedDailyGoal getTotalBaseDailyGoal
    sumAdjustedDailyGoalsForRange normalizeDate
  rw [ht, hs, he]
  exact ⟨rfl, rfl, rfl⟩

/-- Witness for C10: midnight, noon and end-of-day inputs of the same
calendar days agree. -/
theorem claim_C10_witness :
    (Timestamp.day ⟨19723, 0⟩ = Timestamp.day ⟨19723, endMs⟩) ∧
    getTotalAdjustedDailyGoal [exCompanyAR] ⟨19723, 0⟩ =
      getTotalAdjustedDailyGoal [exCompanyAR] ⟨19723, endMs⟩ ∧
    getTotalBaseDailyGoal [exCompanyAR] ⟨19723, 0⟩ =
      getTotalBaseDailyGoal [exCompanyAR] ⟨19723, endMs⟩ ∧
    sumAdjustedDailyGoalsForRange [exCompanyAR] ⟨19723, 7⟩ ⟨19724, 9⟩ =
      sumAdjustedDailyGoalsForRange [exCompanyAR] ⟨19723, noonMs⟩ ⟨19724, 0⟩ :=
  ⟨rfl, claim_C10 [exCompanyAR] ⟨19723, 0⟩ ⟨19723, endMs⟩ ⟨19723, 7⟩ ⟨19723, noonMs⟩
    ⟨19724, 9⟩ ⟨19724, 0⟩ rfl rfl rfl⟩

end Dash

namespace Dash

/-- C3: with a positive day count `D` for the month of `t` and target `T`
for that month, the daily base goal is `T / D` on every day of that month
(any date with the same month number and day count), the day-by-day sum
over the `D` days of the month (the coherence hypothesis says those are
the days sharing `t`'s month) is exactly `T`, and a month with no stored
target yields 0 instead of failing. -/
theorem claim_C3 (company : CompanyMetaInfo) (t : Timestamp) :
    (0 < jsDaysInMonth t →
      ∀ u : Timestamp, jsMonth u = jsMonth t → jsDaysInMonth u = jsDaysInMonth t →
        getCompanyDailyBaseGoal company u =
          metaFor company.metas (jsMonth t) / ((jsDaysInMonth t : ℤ) : ℚ)) ∧
    (0 < jsDaysInMonth t →
      (∀ i : ℕ, i < (jsDaysInMonth t).toNat →
        jsMonth ⟨(jsStartOfMonth t).day + (i : ℤ), noonMs⟩ = jsMonth t ∧
        jsDaysInMonth ⟨(jsStartOfMonth t).day + (i : ℤ), noonMs⟩ = jsDaysInMonth t) →
      ((List.range (jsDaysInMonth t).toNat).map
        (fun (i : ℕ) => getCompanyDailyBaseGoal company
          ⟨(jsStartOfMonth t).day + (i : ℤ), noonMs⟩)).sum =
        metaFor company.metas (jsMonth t)) ∧
    (company.metas.lookup (jsMonth t) = none →
      getCompanyDailyBaseGoal company t = 0) := by
  refine ⟨?_, ?_, ?_⟩
  · intro hD u hm hdim
    unfold getCompanyDailyBaseGoal
    rw [hm, hdim]
    simp [hD]
  · intro hD hcoh
    have key : ∀ i ∈ List.range (jsDaysInMonth t).toNat,
        getCompanyDailyBaseGoal company ⟨(jsStartOfMonth t).day + (i : ℤ), noonMs⟩ =
        metaFor company.metas (jsMonth t) / ((jsDaysInMonth t : ℤ) : ℚ) := by
      intro i hi
      obtain ⟨hm, hdim⟩ := hcoh i (List.mem_range.mp hi)
      unfold getCompanyDailyBaseGoal
      rw [hm, hdim]
      simp [hD]
    rw [List.map_congr_left key]
    have hlen : ((List.range (jsDaysInMonth t).toNat).map
        (fun _ => metaFor company.metas (jsMonth t) / ((jsDaysInMonth t : ℤ) : ℚ))).sum =
        ((jsDaysInMonth t).toNat : ℚ) *
          (metaFor company.metas (jsMonth t) / ((jsDaysInMonth t : ℤ) : ℚ)) := by
      rw [List.map_const']
      rw [List.sum_replicate, List.length_range]
      rw [nsmul_eq_mul]
    rw [hlen]
    have h1 : (((jsDaysInMonth t).toNat : ℤ) : ℚ) = ((jsDaysInMonth t : ℤ) : ℚ) := by
      rw [Int.toNat_of_nonneg hD.le]
    have h2 : ((jsDaysInMonth t).toNat : ℚ) = ((jsDaysInMonth t : ℤ) : ℚ) := by
      rw [← h1]
      push_cast
      ring
    rw [h2, mul_comm, div_mul_cancel₀]
    have hpos : (0 : ℚ) < ((jsDaysInMonth t : ℤ) : ℚ) := by exact_mod_cast hD
    exact ne_of_gt hpos
  · intro hnone
    simp [getCompanyDailyBaseGoal, metaFor, hnone]

/-- Witness for C3: line "X" with January target 31000 in the 31-day month
January 2024 — the daily base goal on 2024-01-15 is 1000 and the 31-day sum
is 31000 (Scenario A of the specification). -/
theorem claim_C3_witness :
    (0 < jsDaysInMonth ⟨19737, noonMs⟩) ∧
    getCompanyDailyBaseGoal exCompanyX ⟨19737, noonMs⟩ = 1000 ∧
    ((List.range (jsDaysInMonth ⟨19737, noonMs⟩).toNat).map
      (fun (i : ℕ) => getCompanyDailyBaseGoal exCompanyX
        ⟨(jsStartOfMonth ⟨19737, noonMs⟩).day + (i : ℤ), noonMs⟩)).sum = 31000 := by
  have h := claim_C3 exCompanyX ⟨19737, noonMs⟩
  have hm : jsMonth (⟨19737, noonMs⟩ : Timestamp) = 1 := by decide
  have hd : jsDaysInMonth (⟨19737, noonMs⟩ : Timestamp) = 31 := by decide
  refine ⟨by decide, ?_, ?_⟩
  · rw [h.1 (by decide) ⟨19737, noonMs⟩ rfl rfl, hm, hd]
    norm_num [metaFor, exCompanyX, List.lookup]
  · rw [h.2.1 (by decide) (by decide), hm]
    norm_num [metaFor, exCompanyX, List.lookup]

end Dash

namespace Dash

/-- C1: for a fixed clock reading, `diaAtual` is the day-of-month of the
previous calendar day (T-1), and `realizadoMes` is the sum of the
entity-filtered records dated between the start of T-1's month and the end
of day T-1 — independent of the active date preset and of the custom date
range. -/
theorem claim_C1 (data : List FaturamentoRecord) (f : Filters)
    (preset : DatePreset) (yg : List CompanyYearlyGoal)
    (lines : List RevenueLine) (now : Timestamp) :
    ((goalMetrics data f preset yg lines now).diaAtual =
      jsDate ⟨now.day - 1, noonMs⟩) ∧
    ((goalMetrics data f preset yg lines now).realizadoMes =
      sumFaturamento ((data.filter (recordPassesEntity f)).filter (fun r =>
        jsLe (jsStartOfMonth ⟨now.day - 1, noonMs⟩) r.data &&
        jsLe r.data ⟨now.day - 1, endMs⟩))) ∧
    (∀ (preset2 : DatePreset) (di df : Option Timestamp),
      (goalMetrics data { f with dataInicio := di, dataFim := df }
        preset2 yg lines now).realizadoMes =
      (goalMetrics data f preset yg lines now).realizadoMes) :=
  ⟨rfl, rfl, fun _ _ _ => rfl⟩

/-- C5: with the `all` preset and both custom endpoints set, `metaMensal`
equals the adjusted-goal sum over the literal custom range and
`metaProporcional` equals `metaMensal`; in particular Scenario D (two
lines with January target 3100 each, non-adjusted segment, empty entity
filters, custom range 2024-01-01 .. 2024-01-02) yields `metaMensal` 400. -/
theorem claim_C5 :
    (∀ (data : List FaturamentoRecord) (f : Filters)
      (yg : List CompanyYearlyGoal) (lines : List RevenueLine)
      (now s e : Timestamp), f.dataInicio = some s → f.dataFim = some e →
      (goalMetrics data f .all yg lines now).metaMensal =
        sumAdjustedDailyGoalsForRange
          (filterCompaniesByFilters (buildCompanyMetaInfo yg lines) f) s e ∧
      (goalMetrics data f .all yg lines now).metaProporcional =
        (goalMetrics data f .all yg lines now).metaMensal) ∧
    ((goalMetrics [] exFiltersJan .all exGoals exLines ⟨19750, 0⟩).metaMensal = 400 ∧
     (goalMetrics [] exFiltersJan .all exGoals exLines ⟨19750, 0⟩).metaProporcional = 400) := by
  have hgen : ∀ (data : List FaturamentoRecord) (f : Filters)
      (yg : List CompanyYearlyGoal) (lines : List RevenueLine)
      (now s e : Timestamp), f.dataInicio = some s → f.dataFim = some e →
      (goalMetrics data f .all yg lines now).metaMensal =
        sumAdjustedDailyGoalsForRange
          (filterCompaniesByFilters (buildCompanyMetaInfo yg lines) f) s e ∧
      (goalMetrics data f .all yg lines now).metaProporcional =
        (goalMetrics data f .all yg lines now).metaMensal := by
    intro data f yg lines now s e hI hF
    simp only [goalMetrics, effectiveDateRange, hI, hF]
    exact ⟨rfl, rfl⟩
  have hsel : filterCompaniesByFilters (buildCompanyMetaInfo exGoals exLines) exFiltersJan =
      [⟨"A", "G1", [(1, 3100)], "OUTROS"⟩, ⟨"B", "G1", [(1, 3100)], "OUTROS"⟩] := by
    decide
  have hval : sumAdjustedDailyGoalsForRange
      [(⟨"A", "G1", [(1, 3100)], "OUTROS"⟩ : CompanyMetaInfo), ⟨"B", "G1", [(1, 3100)], "OUTROS"⟩]
      ⟨19723, 0⟩ ⟨19724, 0⟩ = 400 := by
    have hs : "OUTROS" ≠ "AR CONDICIONADO" := by decide
    have hadj : ∀ (nm gr : String) (d : ℤ), jsMonth (⟨d, noonMs⟩ : Timestamp) = 1 →
        jsDaysInMonth (⟨d, noonMs⟩ : Timestamp) = 31 →
        getCompanyAdjustedDailyGoal ⟨nm, gr, [(1, 3100)], "OUTROS"⟩ ⟨d, noonMs⟩ = 100 := by
      intro nm gr d hm hd
      unfold getCompanyAdjustedDailyGoal getCompanyDailyBaseGoal getAdjustmentFactor
      rw [hm, hd]
      rw [if_pos hs]
      norm_num [metaFor, List.lookup]
    have htot : ∀ d : ℤ, jsMonth (⟨d, noonMs⟩ : Timestamp) = 1 →
        jsDaysInMonth (⟨d, noonMs⟩ : Timestamp) = 31 →
        getTotalAdjustedDailyGoal
          [(⟨"A", "G1", [(1, 3100)], "OUTROS"⟩ : CompanyMetaInfo),
           ⟨"B", "G1", [(1, 3100)], "OUTROS"⟩]
          ⟨d, noonMs⟩ = 200 := by
      intro d hm hd
      unfold getTotalAdjustedDailyGoal
      simp only [normalizeDate, List.foldl, List.length_cons, List.length_nil]
      rw [hadj "A" "G1" d hm hd, hadj "B" "G1" d hm hd]
      norm_num
    have hstep : sumAdjustedDailyGoalsForRange
        [(⟨"A", "G1", [(1, 3100)], "OUTROS"⟩ : CompanyMetaInfo),
         ⟨"B", "G1", [(1, 3100)], "OUTROS"⟩]
        ⟨19723, 0⟩ ⟨19724, 0⟩ =
        getTotalAdjustedDailyGoal
          [(⟨"A", "G1", [(1, 3100)], "OUTROS"⟩ : CompanyMetaInfo),
           ⟨"B", "G1", [(1, 3100)], "OUTROS"⟩] ⟨19723, noonMs⟩ +
        (getTotalAdjustedDailyGoal
          [(⟨"A", "G1", [(1, 3100)], "OUTROS"⟩ : CompanyMetaInfo),
           ⟨"B", "G1", [(1, 3100)], "OUTROS"⟩] ⟨19723 + 1, noonMs⟩ + 0) := rfl
    rw [hstep, htot 19723 (by decide) (by decide)]
    rw [show (19723 + 1 : ℤ) = 19724 from rfl, htot 19724 (by decide) (by decide)]
    norm_num
  have hconc := hgen [] exFiltersJan exGoals exLines ⟨19750, 0⟩ ⟨19723, 0⟩ ⟨19724, 0⟩ rfl rfl
  have hM : (goalMetrics [] exFiltersJan .all exGoals exLines ⟨19750, 0⟩).metaMensal = 400 := by
    rw [hconc.1, hsel, hval]
  exact ⟨hgen, hM, by rw [hconc.2, hM]⟩

/-- Witness for C5: the general custom-range branch applied at Scenario D's
inputs. -/
theorem claim_C5_witness :
    (exFiltersJan.dataInicio = some ⟨19723, 0⟩ ∧ exFiltersJan.dataFim = some ⟨19724, 0⟩) ∧
    (goalMetrics [] exFiltersJan .all exGoals exLines ⟨19750, 0⟩).metaMensal =
      sumAdjustedDailyGoalsForRange
        (filterCompaniesByFilters (buildCompanyMetaInfo exGoals exLines) exFiltersJan)
        ⟨19723, 0⟩ ⟨19724, 0⟩ :=
  ⟨⟨rfl, rfl⟩,
   (claim_C5.1 [] exFiltersJan exGoals exLines ⟨19750, 0⟩ ⟨19723, 0⟩ ⟨19724, 0⟩ rfl rfl).1⟩

end Dash

namespace Dash

/-- Counterexample for C6: for the one-day preset-style period
2024-03-14 00:00 .. 2024-03-14 23:59:59.999 (s = e = day 19796), the code
computes a TWO-day comparison period 2024-03-12 .. 2024-03-13 with label
"2 dias anteriores", although the inclusive calendar-day count e−s+1 of the
current period is 1 — so the comparison duration does not equal e−s+1. -/
theorem claim_C6_counterexample :
    comparisonDateRange true none none (some ⟨19796, 0⟩, some ⟨19796, endMs⟩) =
      some (⟨19794, 0⟩, ⟨19795, endMs⟩, "2 dias anteriores") ∧
    ¬((19795 : ℤ) - 19794 + 1 = (19796 : ℤ) - 19796 + 1) := by
  constructor
  · rfl
  · decide

/-- C6 (amended): when comparison is enabled, no custom comparison range is
set, both endpoints of the current period exist, s ≤ e, and e's time-of-day
does not exceed s's time-of-day (as for midnight-normalized custom ranges),
the comparison period ends exactly one calendar day before s at end of day,
its inclusive day count equals e−s+1, and the label is "Dia Anterior"
exactly when the computed duration is 1 day.  (For preset-produced ranges,
whose end time 23:59:59.999 exceeds the start time 00:00, the computed
duration `ceil((e−s)/1day)+1` is one day larger than e−s+1, as the
counterexample shows.) -/
theorem claim_C6_amended (s e : Timestamp) (hms : e.ms ≤ s.ms) (hbound : s.ms < dayMs)
    (hday : s.day ≤ e.day) :
    ∃ cs ce lbl, comparisonDateRange true none none (some s, some e) = some (cs, ce, lbl) ∧
      ce.day = s.day - 1 ∧ ce.ms = endMs ∧ cs.ms = 0 ∧
      ce.day - cs.day + 1 = e.day - s.day + 1 ∧
      (lbl = "Dia Anterior" ↔ e.day - s.day + 1 = 1) := by
  have hb : (0 : ℤ) < (dayMs : ℤ) := by norm_num [dayMs]
  have key : ceilDiv (e.toMs - s.toMs) (dayMs : ℤ) = e.day - s.day := by
    have hrw : -(e.toMs - s.toMs) = ((s.ms : ℤ) - (e.ms : ℤ)) + (s.day - e.day) * (dayMs : ℤ) := by
      simp only [Timestamp.toMs]
      ring
    rw [ceilDiv, Int.fdiv_eq_ediv _ hb.le, hrw, Int.add_mul_ediv_right _ _ (ne_of_gt hb)]
    rw [Int.ediv_eq_zero_of_lt]
    · ring
    · omega
    · omega
  simp only [comparisonDateRange, Bool.not_true, Bool.false_eq_true, if_false, key]
  refine ⟨_, _, _, rfl, rfl, rfl, rfl, by ring, ?_⟩
  by_cases h1 : e.day - s.day + 1 = 1
  · simp [h1]
  · rw [if_neg h1]
    simp only [h1, iff_false]
    by_cases h7 : e.day - s.day + 1 ≤ 7
    · rw [if_pos h7]
      have h2 : 2 ≤ e.day - s.day + 1 := by omega
      set k := e.day - s.day + 1 with hk
      interval_cases k <;> decide
    · rw [if_neg h7]
      decide

/-- Witness for the amended C6: Scenario E's 3-day period
2024-03-10 .. 2024-03-12 at midnight endpoints. -/
theorem claim_C6_witness :
    ((0 : ℕ) ≤ 0 ∧ (0 : ℕ) < dayMs ∧ (19792 : ℤ) ≤ 19794) ∧
    (∃ cs ce lbl,
      comparisonDateRange true none none (some ⟨19792, 0⟩, some ⟨19794, 0⟩) =
        some (cs, ce, lbl) ∧
      ce.day = (19792 : ℤ) - 1 ∧ ce.ms = endMs ∧ cs.ms = 0 ∧
      ce.day - cs.day + 1 = (19794 : ℤ) - 19792 + 1 ∧
      (lbl = "Dia Anterior" ↔ (19794 : ℤ) - 19792 + 1 = 1)) :=
  ⟨⟨le_refl 0, by norm_num [dayMs], by norm_num⟩,
   claim_C6_amended ⟨19792, 0⟩ ⟨19794, 0⟩ (le_refl 0) (by norm_num [dayMs]) (by norm_num)⟩

end Dash

namespace Dash
theorem sumFaturamento_go (l : List FaturamentoRecord) (a : ℚ) :
    l.foldl (fun s r => s + r.faturamento) a = a + l.foldl (fun s r => s + r.faturamento) 0 := by
  induction l generalizing a with
  | nil => simp
  | cons r t ih =>
      simp only [List.foldl_cons]
      rw [ih (a + r.faturamento), ih (0 + r.faturamento)]
      ring

theorem sumFaturamento_cons (r : FaturamentoRecord) (l : List FaturamentoRecord) :
    sumFaturamento (r :: l) = r.faturamento + sumFaturamento l := by
  unfold sumFaturamento
  simp only [List.foldl_cons]
  rw [sumFaturamento_go]
  ring

theorem sumFaturamento_nonneg (l : List FaturamentoRecord)
    (h : ∀ r ∈ l, 0 ≤ r.faturamento) : 0 ≤ sumFaturamento l := by
  induction l with
  | nil => simp [sumFaturamento]
  | cons r t ih =>
      rw [sumFaturamento_cons]
      have h1 := h r (List.mem_cons_self r t)
      have h2 := ih (fun x hx => h x (List.mem_cons_of_mem r hx))
      linarith

theorem sumFaturamento_filter_and_le (l : List FaturamentoRecord)
    (p q : FaturamentoRecord → Bool) (h : ∀ r ∈ l, 0 ≤ r.faturamento) :
    sumFaturamento (l.filter (fun r => p r && q r)) ≤ sumFaturamento (l.filter q) := by
  induction l with
  | nil => simp [sumFaturamento]
  | cons r t ih =>
      have h1 := h r (List.mem_cons_self r t)
      have h2 := ih (fun x hx => h x (List.mem_cons_of_mem r hx))
      by_cases hq : q r
      · by_cases hp : p r
        · simp only [List.filter_cons, hp, hq, Bool.and_self, if_true]
          rw [sumFaturamento_cons, sumFaturamento_cons]
          linarith
        · simp only [List.filter_cons, hp, hq, Bool.false_and]
          rw [if_neg (by simp), if_pos (by simp)]
          rw [sumFaturamento_cons]
          linarith
      · simp only [List.filter_cons, hq, Bool.and_false]
        rw [if_neg (by simp [hq]), if_neg (by simp [hq])]
        exact h2

/-- C9: with non-negative record amounts, the entity-and-date filtered
records are a subset of the date-only filtered records, so the filtered
KPI sum never exceeds the total KPI sum and the percentage lies in
[0, 100]. -/
theorem claim_C9 (data : List FaturamentoRecord) (f : Filters)
    (range : Option Timestamp × Option Timestamp)
    (h : ∀ r ∈ data, 0 ≤ r.faturamento) :
    (∀ r ∈ filteredData data f range, r ∈ dateFilteredData data range) ∧
    (kpis data f range).faturamentoFiltrado ≤ (kpis data f range).faturamentoTotal ∧
    0 ≤ (kpis data f range).percentualDoTotal ∧
    (kpis data f range).percentualDoTotal ≤ 100 := by
  have hsub : ∀ r ∈ filteredData data f range, r ∈ dateFilteredData data range := by
    intro r hr
    simp only [filteredData, List.mem_filter, Bool.and_eq_true] at hr
    simp only [dateFilteredData, List.mem_filter]
    exact ⟨hr.1, hr.2.2⟩
  have hle : (kpis data f range).faturamentoFiltrado ≤ (kpis data f range).faturamentoTotal := by
    show sumFaturamento (filteredData data f range) ≤ sumFaturamento (dateFilteredData data range)
    exact sumFaturamento_filter_and_le data _ _ h
  have hF0 : 0 ≤ (kpis data f range).faturamentoFiltrado := by
    show (0 : ℚ) ≤ sumFaturamento (filteredData data f range)
    refine sumFaturamento_nonneg _ ?_
    intro r hr
    exact h r (List.mem_of_mem_filter hr)
  have hT0 : 0 ≤ (kpis data f range).faturamentoTotal := le_trans hF0 hle
  have hpct : (kpis data f range).percentualDoTotal =
      (if (kpis data f range).faturamentoTotal > 0
        then (kpis data f range).faturamentoFiltrado /
          (kpis data f range).faturamentoTotal * 100
        else 0) := rfl
  refine ⟨hsub, hle, ?_, ?_⟩
  · rw [hpct]
    split
    · rename_i hT
      exact mul_nonneg (div_nonneg hF0 hT.le) (by norm_num)
    · exact le_refl 0
  · rw [hpct]
    split
    · rename_i hT
      have h1 : (kpis data f range).faturamentoFiltrado /
          (kpis data f range).faturamentoTotal ≤ 1 := (div_le_one hT).mpr hle
      calc (kpis data f range).faturamentoFiltrado /
            (kpis data f range).faturamentoTotal * 100
          ≤ 1 * 100 := by
            exact mul_le_mul_of_nonneg_right h1 (by norm_num)
        _ = 100 := by norm_num
    · norm_num

/-- Witness for C9: a single non-negative record with no filters. -/
theorem claim_C9_witness :
    (∀ r ∈ [exRecMar1], 0 ≤ r.faturamento) ∧
    (kpis [exRecMar1] exFiltersNone (none, none)).faturamentoFiltrado ≤
      (kpis [exRecMar1] exFiltersNone (none, none)).faturamentoTotal ∧
    (kpis [exRecMar1] exFiltersNone (none, none)).percentualDoTotal ≤ 100 := by
  have h : ∀ r ∈ [exRecMar1], 0 ≤ r.faturamento := by
    intro r hr
    simp only [List.mem_singleton] at hr
    subst hr
    norm_num [exRecMar1]
  have hc := claim_C9 [exRecMar1] exFiltersNone (none, none) h
  exact ⟨h, hc.2.1, hc.2.2.2⟩

end Dash

namespace Dash

/-- C8: with no records and no goals every sum output and every
percentage/ratio output of the aggregator is 0 (for any filters, preset,
line registry and clock); and in general each guarded division yields 0
when its denominator is 0. -/
theorem claim_C8 :
    (∀ (f : Filters) (preset : DatePreset) (lines : List RevenueLine) (now : Timestamp),
      let gm := goalMetrics [] f preset [] lines now
      gm.realizado = 0 ∧ gm.realizadoMes = 0 ∧ gm.realizadoSemana = 0 ∧
      gm.realizadoDia = 0 ∧ gm.realizadoAno = 0 ∧
      gm.metaMensal = 0 ∧ gm.metaProporcional = 0 ∧ gm.metaSemana = 0 ∧
      gm.esperadoSemanal = 0 ∧ gm.metaDia = 0 ∧ gm.metaDiaAjustada = 0 ∧
      gm.metaAno = 0 ∧ (∀ x ∈ gm.metasMensais, x = 0) ∧
      gm.percentualMeta = 0 ∧ gm.percentualProporcional = 0 ∧
      gm.coverage.dia.percent = 0 ∧ gm.coverage.semana.percent = 0 ∧
      gm.coverage.mes.percent = 0 ∧ gm.coverage.ano.percent = 0 ∧
      kpis [] f (effectiveDateRange preset f now) = ⟨0, 0, 0⟩) ∧
    (∀ (data : List FaturamentoRecord) (f : Filters) (preset : DatePreset)
      (yg : List CompanyYearlyGoal) (lines : List RevenueLine) (now : Timestamp),
      let gm := goalMetrics data f preset yg lines now
      (gm.metaMensal = 0 → gm.percentualMeta = 0) ∧
      (gm.metaProporcional = 0 → gm.percentualProporcional = 0) ∧
      (gm.coverage.dia.expected = 0 → gm.coverage.dia.percent = 0) ∧
      (gm.coverage.semana.expected = 0 → gm.coverage.semana.percent = 0) ∧
      (gm.coverage.mes.expected = 0 → gm.coverage.mes.percent = 0) ∧
      (gm.coverage.ano.expected = 0 → gm.coverage.ano.percent = 0)) ∧
    (∀ (data : List FaturamentoRecord) (f : Filters)
      (range : Option Timestamp × Option Timestamp),
      (kpis data f range).faturamentoTotal = 0 →
      (kpis data f range).percentualDoTotal = 0) := by
  refine ⟨?_, ?_, ?_⟩
  · intro f preset lines now
    have hsel : filterCompaniesByFilters (buildCompanyMetaInfo [] lines) f = [] := rfl
    rcases hr1 : (effectiveDateRange preset f now).1 with _ | s <;>
      rcases hr2 : (effectiveDateRange preset f now).2 with _ | e <;>
        simp [goalMetrics, hr1, hr2, hsel, filteredData, dateFilteredData, kpis,
          sumAdjustedDailyGoalsForRange, getTotalMonthlyGoal, getTotalYearlyGoal,
          getTotalBaseDailyGoal, getTotalAdjustedDailyGoal, sumFaturamento,
          buildCoverage, countDays]
  · intro data f preset yg lines now
    refine ⟨?_, ?_, ?_, ?_, ?_, ?_⟩ <;> intro h
    · have hrfl : (goalMetrics data f preset yg lines now).percentualMeta =
          (if (goalMetrics data f preset yg lines now).metaMensal > 0
            then (goalMetrics data f preset yg lines now).realizado /
              (goalMetrics data f preset yg lines now).metaMensal * 100
            else 0) := rfl
      rw [hrfl, h]
      norm_num
    · have hrfl : (goalMetrics data f preset yg lines now).percentualProporcional =
          (if (goalMetrics data f preset yg lines now).metaProporcional > 0
            then (goalMetrics data f preset yg lines now).realizado /
              (goalMetrics data f preset yg lines now).metaProporcional * 100
            else 0) := rfl
      rw [hrfl, h]
      norm_num
    · have hrfl : (goalMetrics data f preset yg lines now).coverage.dia.percent =
          (if (goalMetrics data f preset yg lines now).coverage.dia.expected > 0
            then ((goalMetrics data f preset yg lines now).coverage.dia.observed : ℚ) /
              ((goalMetrics data f preset yg lines now).coverage.dia.expected : ℚ)
            else 0) := rfl
      rw [hrfl, h]
      norm_num
    · have hrfl : (goalMetrics data f preset yg lines now).coverage.semana.percent =
          (if (goalMetrics data f preset yg lines now).coverage.semana.expected > 0
            then ((goalMetrics data f preset yg lines now).coverage.semana.observed : ℚ) /
              ((goalMetrics data f preset yg lines now).coverage.semana.expected : ℚ)
            else 0) := rfl
      rw [hrfl, h]
      norm_num
    · have hrfl : (goalMetrics data f preset yg lines now).coverage.mes.percent =
          (if (goalMetrics data f preset yg lines now).coverage.mes.expected > 0
            then ((goalMetrics data f preset yg lines now).coverage.mes.observed : ℚ) /
              ((goalMetrics data f preset yg lines now).coverage.mes.expected : ℚ)
            else 0) := rfl
      rw [hrfl, h]
      norm_num
    · have hrfl : (goalMetrics data f preset yg lines now).coverage.ano.percent =
          (if (goalMetrics data f preset yg lines now).coverage.ano.expected > 0
            then ((goalMetrics data f preset yg lines now).coverage.ano.observed : ℚ) /
              ((goalMetrics data f preset yg lines now).coverage.ano.expected : ℚ)
            else 0) := rfl
      rw [hrfl, h]
      norm_num
  · intro data f range h
    have hrfl : (kpis data f range).percentualDoTotal =
        (if (kpis data f range).faturamentoTotal > 0
          then (kpis data f range).faturamentoFiltrado /
            (kpis data f range).faturamentoTotal * 100
          else 0) := rfl
    rw [hrfl, h]
    norm_num

/-- Witness for C8: the empty-input conclusions at concrete inputs, and a
record set whose date filter excludes everything (total 0 gives percent
0). -/
theorem claim_C8_witness :
    ((goalMetrics [] exFiltersNone .mtd [] [] ⟨19785, 0⟩).metaMensal = 0 ∧
     (goalMetrics [] exFiltersNone .mtd [] [] ⟨19785, 0⟩).percentualMeta = 0) ∧
    ((kpis [exRecMar1] exFiltersNone (some ⟨19790, 0⟩, none)).faturamentoTotal = 0 ∧
     (kpis [exRecMar1] exFiltersNone (some ⟨19790, 0⟩, none)).percentualDoTotal = 0) :=
  ⟨⟨(claim_C8.1 exFiltersNone .mtd [] ⟨19785, 0⟩).2.2.2.2.2.1,
    (claim_C8.1 exFiltersNone .mtd [] ⟨19785, 0⟩).2.2.2.2.2.2.2.2.2.2.2.2.2.1⟩,
   ⟨rfl, claim_C8.2.2 [exRecMar1] exFiltersNone (some ⟨19790, 0⟩, none) rfl⟩⟩

end Dash

namespace Dash

theorem countDays_mem (records : List FaturamentoRecord) (a b d : ℤ) :
    d ∈ ((records.filter (fun r =>
        jsLe ⟨a, 0⟩ ⟨r.data.day, 0⟩ && jsLe ⟨r.data.day, 0⟩ ⟨b, 0⟩)).map
      (fun r => r.data.day)).toFinset ↔
    (a ≤ d ∧ d ≤ b ∧ ∃ r ∈ records, r.data.day = d) := by
  simp only [List.mem_toFinset, List.mem_map, List.mem_filter, Bool.and_eq_true,
    jsLe_same_ms, decide_eq_true_eq]
  constructor
  · rintro ⟨r, ⟨hr, h1, h2⟩, rfl⟩
    exact ⟨h1, h2, r, hr, rfl⟩
  · rintro ⟨h1, h2, r, hr, rfl⟩
    exact ⟨r, ⟨hr, h1, h2⟩, rfl⟩

theorem countDays_eq_card (records : List FaturamentoRecord) (a b : ℤ) :
    countDays records ⟨a, 0⟩ ⟨b, 0⟩ =
      ((records.filter (fun r =>
          jsLe ⟨a, 0⟩ ⟨r.data.day, 0⟩ && jsLe ⟨r.data.day, 0⟩ ⟨b, 0⟩)).map
        (fun r => r.data.day)).toFinset.card := rfl

theorem countDays_subset (records : List FaturamentoRecord) (a b : ℤ) :
    ((records.filter (fun r =>
        jsLe ⟨a, 0⟩ ⟨r.data.day, 0⟩ && jsLe ⟨r.data.day, 0⟩ ⟨b, 0⟩)).map
      (fun r => r.data.day)).toFinset ⊆ Finset.Icc a b := by
  intro d hd
  rw [countDays_mem] at hd
  rw [Finset.mem_Icc]
  exact ⟨hd.1, hd.2.1⟩

theorem countDays_le (records : List FaturamentoRecord) (a b : ℤ) :
    (countDays records ⟨a, 0⟩ ⟨b, 0⟩ : ℤ) ≤ max (b - a + 1) 0 := by
  rw [countDays_eq_card]
  have h1 := Finset.card_le_card (countDays_subset records a b)
  rw [Int.card_Icc] at h1
  have h2 : ((b + 1 - a).toNat : ℤ) = max (b + 1 - a) 0 := Int.toNat_eq_max _
  omega

theorem buildCoverage_fields (records : List FaturamentoRecord) (a b : ℤ) :
    (buildCoverage records ⟨a, 0⟩ ⟨b, 0⟩).expected = max (b - a + 1) 0 ∧
    (buildCoverage records ⟨a, 0⟩ ⟨b, 0⟩).observed =
      (if max (b - a + 1) 0 > 0 then countDays records ⟨a, 0⟩ ⟨b, 0⟩ else 0) ∧
    (buildCoverage records ⟨a, 0⟩ ⟨b, 0⟩).percent =
      (if max (b - a + 1) 0 > 0
        then ((buildCoverage records ⟨a, 0⟩ ⟨b, 0⟩).observed : ℚ) / ((max (b - a + 1) 0 : ℤ) : ℚ)
        else 0) := by
  exact ⟨rfl, rfl, rfl⟩

theorem buildCoverage_observed_le (records : List FaturamentoRecord) (a b : ℤ) :
    ((buildCoverage records ⟨a, 0⟩ ⟨b, 0⟩).observed : ℤ) ≤
      (buildCoverage records ⟨a, 0⟩ ⟨b, 0⟩).expected := by
  obtain ⟨he, ho, -⟩ := buildCoverage_fields records a b
  rw [he, ho]
  split
  · exact countDays_le records a b
  · simp

theorem buildCoverage_percent_one_iff (records : List FaturamentoRecord) (a b : ℤ)
    (hab : a ≤ b) :
    ((buildCoverage records ⟨a, 0⟩ ⟨b, 0⟩).percent = 1 ↔
      ∀ d : ℤ, a ≤ d → d ≤ b → ∃ r ∈ records, r.data.day = d) := by
  obtain ⟨he, ho, hp⟩ := buildCoverage_fields records a b
  have hmax : max (b - a + 1) 0 = b - a + 1 := by omega
  have hpos : (0 : ℤ) < b - a + 1 := by omega
  rw [hp, ho, hmax, if_pos hpos, if_pos hpos]
  have hqpos : (0 : ℚ) < ((b - a + 1 : ℤ) : ℚ) := by exact_mod_cast hpos
  rw [div_eq_one_iff_eq (ne_of_gt hqpos)]
  rw [countDays_eq_card]
  set S := ((records.filter (fun r =>
      jsLe ⟨a, 0⟩ ⟨r.data.day, 0⟩ && jsLe ⟨r.data.day, 0⟩ ⟨b, 0⟩)).map
    (fun r => r.data.day)).toFinset with hS
  have hsub : S ⊆ Finset.Icc a b := countDays_subset records a b
  have hcard : (Finset.Icc a b).card = (b - a + 1).toNat := by
    rw [Int.card_Icc]
    congr 1
    omega
  constructor
  · intro hone d h1 h2
    have hcards : (S.card : ℚ) = ((b - a + 1 : ℤ) : ℚ) := hone
    have hcardz : (S.card : ℤ) = b - a + 1 := by exact_mod_cast hcards
    have hcardn : S.card = (Finset.Icc a b).card := by
      rw [hcard]
      omega
    have heq : S = Finset.Icc a b :=
      Finset.eq_of_subset_of_card_le hsub (le_of_eq hcardn.symm)
    have : d ∈ S := by
      rw [heq, Finset.mem_Icc]
      exact ⟨h1, h2⟩
    rw [hS, countDays_mem] at this
    exact this.2.2
  · intro hall
    have hsup : Finset.Icc a b ⊆ S := by
      intro d hd
      rw [Finset.mem_Icc] at hd
      rw [hS, countDays_mem]
      exact ⟨hd.1, hd.2, hall d hd.1 hd.2⟩
    have heq : S = Finset.Icc a b := Finset.Subset.antisymm hsub hsup
    rw [heq, hcard]
    have : ((b - a + 1).toNat : ℤ) = b - a + 1 := Int.toNat_of_nonneg hpos.le
    exact_mod_cast congrArg (Int.cast : ℤ → ℚ) this

theorem buildCoverage_percent_le_one (records : List FaturamentoRecord) (a b : ℤ) :
    (buildCoverage records ⟨a, 0⟩ ⟨b, 0⟩).percent ≤ 1 := by
  obtain ⟨he, ho, hp⟩ := buildCoverage_fields records a b
  rw [hp]
  split
  · rename_i hpos
    have hobs := buildCoverage_observed_le records a b
    rw [he] at hobs
    have hq : ((buildCoverage records ⟨a, 0⟩ ⟨b, 0⟩).observed : ℚ) ≤
        ((max (b - a + 1) 0 : ℤ) : ℚ) := by exact_mod_cast hobs
    have hqpos : (0 : ℚ) < ((max (b - a + 1) 0 : ℤ) : ℚ) := by exact_mod_cast hpos
    rw [div_le_one hqpos]
    exact hq
  · norm_num

/-- C7: for each coverage window, observed never exceeds expected and the
percent is the guarded ratio observed/expected; the month window's percent
is exactly 1 when every calendar day from the month start of the reference
date through the reference date has at least one entity-filtered record,
and strictly below 1 when some such day has none. -/
theorem claim_C7 (data : List FaturamentoRecord) (f : Filters)
    (preset : DatePreset) (yg : List CompanyYearlyGoal)
    (lines : List RevenueLine) (now : Timestamp)
    (range : Option Timestamp × Option Timestamp) (ref : Timestamp)
    (efd : List FaturamentoRecord) (gm : GoalMetrics)
    (hrange : range = effectiveDateRange preset f now)
    (href : ref = referenceDateOf (filteredData data f range) range now)
    (hefd : efd = data.filter (recordPassesEntity f))
    (hgm : gm = goalMetrics data f preset yg lines now) :
    (((gm.coverage.dia.observed : ℤ) ≤ gm.coverage.dia.expected) ∧
     ((gm.coverage.semana.observed : ℤ) ≤ gm.coverage.semana.expected) ∧
     ((gm.coverage.mes.observed : ℤ) ≤ gm.coverage.mes.expected) ∧
     ((gm.coverage.ano.observed : ℤ) ≤ gm.coverage.ano.expected)) ∧
    ((gm.coverage.dia.percent = if gm.coverage.dia.expected > 0
        then (gm.coverage.dia.observed : ℚ) / (gm.coverage.dia.expected : ℚ) else 0) ∧
     (gm.coverage.semana.percent = if gm.coverage.semana.expected > 0
        then (gm.coverage.semana.observed : ℚ) / (gm.coverage.semana.expected : ℚ) else 0) ∧
     (gm.coverage.mes.percent = if gm.coverage.mes.expected > 0
        then (gm.coverage.mes.observed : ℚ) / (gm.coverage.mes.expected : ℚ) else 0) ∧
     (gm.coverage.ano.percent = if gm.coverage.ano.expected > 0
        then (gm.coverage.ano.observed : ℚ) / (gm.coverage.ano.expected : ℚ) else 0)) ∧
    ((jsStartOfMonth ref).day ≤ ref.day →
      ((gm.coverage.mes.percent = 1 ↔
          ∀ d : ℤ, (jsStartOfMonth ref).day ≤ d → d ≤ ref.day →
            ∃ r ∈ efd, r.data.day = d) ∧
       ((∃ d : ℤ, (jsStartOfMonth ref).day ≤ d ∧ d ≤ ref.day ∧
            ∀ r ∈ efd, r.data.day ≠ d) → gm.coverage.mes.percent < 1))) := by
  subst hrange href hefd hgm
  refine ⟨⟨?_, ?_, ?_, ?_⟩, ⟨rfl, rfl, rfl, rfl⟩, ?_⟩
  · exact buildCoverage_observed_le _ _ _
  · exact buildCoverage_observed_le _ _ _
  · exact buildCoverage_observed_le _ _ _
  · exact buildCoverage_observed_le _ _ _
  · intro hab
    have hiff := buildCoverage_percent_one_iff
      (data.filter (recordPassesEntity f))
      (jsStartOfMonth (referenceDateOf
        (filteredData data f (effectiveDateRange preset f now))
        (effectiveDateRange preset f now) now)).day
      (referenceDateOf (filteredData data f (effectiveDateRange preset f now))
        (effectiveDateRange preset f now) now).day hab
    refine ⟨hiff, ?_⟩
    rintro ⟨d, h1, h2, h3⟩
    have hle := buildCoverage_percent_le_one
      (data.filter (recordPassesEntity f))
      (jsStartOfMonth (referenceDateOf
        (filteredData data f (effectiveDateRange preset f now))
        (effectiveDateRange preset f now) now)).day
      (referenceDateOf (filteredData data f (effectiveDateRange preset f now))
        (effectiveDateRange preset f now) now).day
    refine lt_of_le_of_ne hle ?_
    intro hone
    obtain ⟨r, hr, hrd⟩ := hiff.mp hone d h1 h2
    exact h3 r hr hrd

end Dash

namespace Dash

/-- Witness for C7: Scenario C's records (2024-03-01 and 2024-03-02) cover
every day of the month window ending at the reference date 2024-03-02, so
the month coverage percent is exactly 1. -/
theorem claim_C7_witness :
    (goalMetrics [exRecMar1, exRecMar2] exFiltersNone .all [] []
      ⟨19785, 40000000⟩).coverage.mes.percent = 1 := by
  have h := claim_C7 [exRecMar1, exRecMar2] exFiltersNone .all [] [] ⟨19785, 40000000⟩
    (effectiveDateRange .all exFiltersNone ⟨19785, 40000000⟩)
    (referenceDateOf (filteredData [exRecMar1, exRecMar2] exFiltersNone
      (effectiveDateRange .all exFiltersNone ⟨19785, 40000000⟩))
      (effectiveDateRange .all exFiltersNone ⟨19785, 40000000⟩) ⟨19785, 40000000⟩)
    ([exRecMar1, exRecMar2].filter (recordPassesEntity exFiltersNone))
    (goalMetrics [exRecMar1, exRecMar2] exFiltersNone .all [] [] ⟨19785, 40000000⟩)
    rfl rfl rfl rfl
  have href : referenceDateOf (filteredData [exRecMar1, exRecMar2] exFiltersNone
      (effectiveDateRange .all exFiltersNone ⟨19785, 40000000⟩))
      (effectiveDateRange .all exFiltersNone ⟨19785, 40000000⟩) ⟨19785, 40000000⟩ =
      ⟨19784, noonMs⟩ := rfl
  have hm := h.2.2
  rw [href] at hm
  have hab : (jsStartOfMonth (⟨19784, noonMs⟩ : Timestamp)).day ≤
      (⟨19784, noonMs⟩ : Timestamp).day := by decide
  refine (hm hab).1.mpr ?_
  intro d h1 h2
  have hs : (jsStartOfMonth (⟨19784, noonMs⟩ : Timestamp)).day = 19783 := by decide
  have h1a : (19783 : ℤ) ≤ d := by rw [hs] at h1; exact h1
  have h2a : d ≤ (19784 : ℤ) := h2
  interval_cases d
  · exact ⟨exRecMar1, by decide, rfl⟩
  · exact ⟨exRecMar2, by decide, rfl⟩

end Dash
